import Mathlib

/-!
Verification of the freshrss-image-cache-proxy worker (src/lib.rs).

The development shallowly embeds the program: the SHA-256 based key
derivation (`get_r2_key`), the R2 object-store client (`put_in_r2`,
`get_from_r2`), the cache orchestrator (`cache_url`) and the two HTTP
handlers (`get`, `post`).  External platform effects (the R2 bucket, the
network, environment variables, URL parsing) are modelled as explicit
oracles in a `World` record; every operation is a pure function from a
`World` to a result paired with the (possibly updated) store contents.
Machine words are `Nat` with explicit reduction modulo 2^32.
-/

namespace Ficp

/-! ## SHA-256 (FIPS 180-4), as computed by the sha2 crate inside `get_r2_key` -/

/-- Concatenation of the images of `f`, structural so the kernel can reduce it. -/
def flatMapL (f : α → List β) : List α → List β
  | [] => []
  | x :: xs => f x ++ flatMapL f xs

/-- Wrap to a 32-bit word. -/
def w32 (n : Nat) : Nat := n % 4294967296

/-- Right rotation of a 32-bit word. -/
def rotr32 (n x : Nat) : Nat := (x >>> n) ||| w32 (x <<< (32 - n))

def shaCh (x y z : Nat) : Nat := (x &&& y) ^^^ ((x ^^^ 4294967295) &&& z)

def shaMaj (x y z : Nat) : Nat := (x &&& y) ^^^ (x &&& z) ^^^ (y &&& z)

def bigSigma0 (x : Nat) : Nat := rotr32 2 x ^^^ rotr32 13 x ^^^ rotr32 22 x

def bigSigma1 (x : Nat) : Nat := rotr32 6 x ^^^ rotr32 11 x ^^^ rotr32 25 x

def smallSigma0 (x : Nat) : Nat := rotr32 7 x ^^^ rotr32 18 x ^^^ (x >>> 3)

def smallSigma1 (x : Nat) : Nat := rotr32 17 x ^^^ rotr32 19 x ^^^ (x >>> 10)

/-- The 64 SHA-256 round constants. -/
def shaK : List Nat :=
  [1116352408, 1899447441, 3049323471, 3921009573, 961987163, 1508970993,
   2453635748, 2870763221, 3624381080, 310598401, 607225278, 1426881987,
   1925078388, 2162078206, 2614888103, 3248222580, 3835390401, 4022224774,
   264347078, 604807628, 770255983, 1249150122, 1555081692, 1996064986,
   2554220882, 2821834349, 2952996808, 3210313671, 3336571891, 3584528711,
   113926993, 338241895, 666307205, 773529912, 1294757372, 1396182291,
   1695183700, 1986661051, 2177026350, 2456956037, 2730485921, 2820302411,
   3259730800, 3345764771, 3516065817, 3600352804, 4094571909, 275423344,
   430227734, 506948616, 659060556, 883997877, 958139571, 1322822218,
   1537002063, 1747873779, 1955562222, 2024104815, 2227730452, 2361852424,
   2428436474, 2756734187, 3204031479, 3329325298]

/-- The eight 32-bit words of a SHA-256 hash state. -/
structure Hash8 where
  a : Nat
  b : Nat
  c : Nat
  d : Nat
  e : Nat
  f : Nat
  g : Nat
  h : Nat

/-- SHA-256 initial hash value. -/
def initH : Hash8 :=
  ⟨1779033703, 3144134277, 1013904242, 2773480762, 1359893119, 2600822924, 528734635, 1541459225⟩

/-- One SHA-256 compression round, consuming a pair of round constant and schedule word. -/
def shaRound (st : Hash8) (kw : Nat × Nat) : Hash8 :=
  let t1 := w32 (st.h + bigSigma1 st.e + shaCh st.e st.f st.g + kw.1 + kw.2)
  let t2 := w32 (bigSigma0 st.a + shaMaj st.a st.b st.c)
  ⟨w32 (t1 + t2), st.a, st.b, st.c, w32 (st.d + t1), st.e, st.f, st.g⟩

/-- Group big-endian bytes into 32-bit words. -/
def bytesToWords : List Nat → List Nat
  | b0 :: b1 :: b2 :: b3 :: rest => (b0 * 16777216 + b1 * 65536 + b2 * 256 + b3) :: bytesToWords rest
  | _ => []

/-- Extend the message schedule by one word. -/
def extendStep (ws : Array Nat) : Array Nat :=
  let n := ws.size
  ws.push (w32 (smallSigma1 (ws.getD (n - 2) 0) + ws.getD (n - 7) 0 +
    smallSigma0 (ws.getD (n - 15) 0) + ws.getD (n - 16) 0))

/-- The 64-word message schedule of one 64-byte chunk. -/
def schedule (chunk : List Nat) : List Nat :=
  (Nat.repeat extendStep 48 (bytesToWords chunk).toArray).toList

/-- Compress one 64-byte chunk into the running hash state. -/
def compressBlock (st : Hash8) (chunk : List Nat) : Hash8 :=
  let ws := schedule chunk
  let r := (shaK.zip ws).foldl shaRound st
  ⟨w32 (st.a + r.a), w32 (st.b + r.b), w32 (st.c + r.c), w32 (st.d + r.d),
   w32 (st.e + r.e), w32 (st.f + r.f), w32 (st.g + r.g), w32 (st.h + r.h)⟩

/-- The 8-byte big-endian encoding of the bit length, for SHA-256 padding. -/
def lenBytes (n : Nat) : List Nat :=
  [(n >>> 56) % 256, (n >>> 48) % 256, (n >>> 40) % 256, (n >>> 32) % 256,
   (n >>> 24) % 256, (n >>> 16) % 256, (n >>> 8) % 256, n % 256]

/-- SHA-256 padding: append 0x80, zeros, and the 64-bit message bit length. -/
def padMessage (msg : List Nat) : List Nat :=
  let len := msg.length
  let padLen := (64 - (len + 9) % 64) % 64
  msg ++ 128 :: (List.replicate padLen 0 ++ lenBytes (8 * len))

/-- Split into 64-byte chunks; the fuel argument keeps the recursion structural. -/
def chunks64Go : Nat → List Nat → List (List Nat)
  | 0, _ => []
  | _, [] => []
  | fuel + 1, x :: xs => ((x :: xs).take 64) :: chunks64Go fuel ((x :: xs).drop 64)

/-- Split a padded message into its 64-byte chunks. -/
def chunks64 (l : List Nat) : List (List Nat) := chunks64Go l.length l

/-- Big-endian bytes of a 32-bit word. -/
def wordBytesBE (x : Nat) : List Nat := [(x >>> 24) % 256, (x >>> 16) % 256, (x >>> 8) % 256, x % 256]

/-- The 32-byte SHA-256 digest of a byte string. -/
def sha256 (msg : List Nat) : List Nat :=
  let r := (chunks64 (padMessage msg)).foldl compressBlock initH
  flatMapL wordBytesBE [r.a, r.b, r.c, r.d, r.e, r.f, r.g, r.h]

/-- UTF-8 encoding of one scalar value, as `str::as_bytes` exposes it. -/
def utf8EncodeCharNat (c : Char) : List Nat :=
  let n := c.toNat
  if n < 128 then [n]
  else if n < 2048 then [192 + n / 64, 128 + n % 64]
  else if n < 65536 then [224 + n / 4096, 128 + n / 64 % 64, 128 + n % 64]
  else [240 + n / 262144, 128 + n / 4096 % 64, 128 + n / 64 % 64, 128 + n % 64]

/-- The UTF-8 bytes of a string (`url.as_bytes()` in the source). -/
def utf8Bytes (s : String) : List Nat := flatMapL utf8EncodeCharNat s.data

/-! ## Lowercase hex encoding (the base16ct crate's `lower::encode_str`) -/

def hexDigits : List Char := "0123456789abcdef".data

def hexDigitL (n : Nat) : Char := hexDigits.getD n '0'

/-- Encode bytes as lowercase hex, high nibble first, as `base16ct::lower::encode_str`
    fills the `dst` buffer of `encoded_len` bytes in the source. -/
def base16LowerEncode (bs : List Nat) : String :=
  String.mk (flatMapL (fun b => [hexDigitL (b / 16), hexDigitL (b % 16)]) bs)

def slashStr : String := "/"

/-- src/lib.rs:14 `get_r2_key`: SHA-256 the URL bytes, hex-encode, and join the
    byte ranges `[0,2)`, `[2,4)`, `[4,..)` with `/` as in the `format!` call. -/
def get_r2_key (url : String) : String :=
  let hash := sha256 (utf8Bytes url)
  let hex := base16LowerEncode hash
  String.mk (hex.data.take 2) ++ slashStr ++ String.mk ((hex.data.drop 2).take 2) ++
    slashStr ++ String.mk (hex.data.drop 4)

/-- The spec's wording of key derivation (§4.1): a lowercase hexadecimal digest of
    the URL's bytes split into the character segments `[0,2)`, `[2,4)` and `[4,end)`
    joined with a path separator.  Stated separately so the source function can be
    proved to refine it. -/
def deriveKeySpec (url : String) : String :=
  let hex := base16LowerEncode (sha256 (utf8Bytes url))
  String.mk (hex.data.take 2 ++ slashStr.data ++ (hex.data.drop 2).take 2 ++
    slashStr.data ++ hex.data.drop 4)

/-! ## The worker platform model -/

/-- `worker::Error`, restricted to the shapes this program produces, plus opaque
    transport errors for the store and network oracles. -/
inductive Error where
  | rustError (msg : String)
  | bindingMissing (name : String)
  | storeHead
  | storeGet
  | storePut
  | fetchFail (tag : Nat)
  | jsonParse
  | urlParse
  | invalidRequestUrl
  deriving DecidableEq, Repr

/-- `worker::ResponseBody`. -/
inductive ResponseBody where
  | Empty
  | Body (items : List Nat)
  | Stream (id : Nat)
  deriving DecidableEq, Repr

/-- `worker::Data`, the value shape accepted by an R2 put. -/
inductive Data where
  | Empty
  | Bytes (items : List Nat)
  | ReadableStream (id : Nat)
  deriving DecidableEq, Repr

/-- `worker::Response`: status code, headers and body. -/
structure Response where
  status_code : Nat
  headers : List (String × String)
  body : ResponseBody
  deriving DecidableEq, Repr

/-- `Response::cloned` (src/lib.rs:67): a duplicate carrying the same content. -/
def Response.cloned (r : Response) : Response := r

/-- `Response::from_body`: a fresh 200 response with no headers. -/
def Response.from_body (b : ResponseBody) : Response := ⟨200, [], b⟩

/-- `Response::empty`: status 200, empty body. -/
def Response.empty : Response := ⟨200, [], ResponseBody.Empty⟩

/-- `Response::error`: the given status with the message as plain-text body. -/
def Response.error (msg : String) (status : Nat) : Response :=
  ⟨status, [], ResponseBody.Body (utf8Bytes msg)⟩

/-- The `ResponseBody` → `Data` match of src/lib.rs:34-38. -/
def dataOfBody : ResponseBody → Data
  | .Empty => .Empty
  | .Body items => .Bytes items
  | .Stream s => .ReadableStream s

/-- `ObjectBody::response_body` on a stored value. -/
def bodyOfData : Data → ResponseBody
  | .Empty => .Empty
  | .Bytes items => .Body items
  | .ReadableStream s => .Stream s

/-- An object persisted in the R2 bucket: value plus custom metadata. -/
structure StoredObject where
  value : Data
  custom_metadata : List (String × String)
  deriving DecidableEq, Repr

/-- The R2 bucket contents, newest binding first. -/
abbrev Store := List (String × StoredObject)

/-- `Object::body` on an object returned by `bucket.get`: always present here,
    since every stored object was written with a value. -/
def objBody (o : StoredObject) : Option Data := some o.value

/-- The only method this program uses. -/
inductive Method where
  | get
  | post
  deriving DecidableEq, Repr

/-- An outbound `worker::Request`. -/
structure Request where
  url : String
  method : Method
  headers : List (String × String)
  deriving DecidableEq, Repr

/-- `worker::Fetch`: either a full request or a bare URL (no headers at all). -/
inductive FetchTarget where
  | request (req : Request)
  | url (u : String)
  deriving DecidableEq, Repr

/-- The external platform: R2 contents and failure switches, environment
    variables, URL validation/parsing and the network.  `send` is the single
    network oracle behind `Fetch::send`. -/
structure World where
  store : Store
  bucketOk : Bool
  headErr : Bool
  getErr : Bool
  putErr : Bool
  vars : List (String × String)
  newRequestOk : String → Bool
  parseUrl : String → Option String
  send : FetchTarget → Except Error Response

/-- Replace the bucket contents, leaving every oracle untouched. -/
def World.withStore (w : World) (s : Store) : World :=
  ⟨s, w.bucketOk, w.headErr, w.getErr, w.putErr, w.vars, w.newRequestOk, w.parseUrl, w.send⟩

/-- Replace the network oracle, leaving everything else untouched. -/
def World.withSend (w : World) (f : FetchTarget → Except Error Response) : World :=
  ⟨w.store, w.bucketOk, w.headErr, w.getErr, w.putErr, w.vars, w.newRequestOk, w.parseUrl, f⟩

/-! ## The program (src/lib.rs) -/

def r2Binding : String := "R2_BINDING"

def urlMetaKey : String := "url"

def userAgentKey : String := "User-Agent"

def defaultUserAgent : String := "Mozilla/5.0 (Windows NT 10.0; Win64; x64) AppleWebKit/537.36 (KHTML, like Gecko) Chrome/142.0.0.0 Safari/537.36"

def fallbackUrlVar : String := "FALLBACK_URL"

def apiTokenVar : String := "API_TOKEN"

def urlQueryKey : String := "url"

def missingUrlMsg : String := "missing url parameter"

def unexpectedStatusMsg : String := "unexpected status code from origin"

def invalidTokenMsg : String := "invalid access token"

/-- `Headers::get` on already-parsed header pairs. -/
def headerGet (hs : List (String × String)) (k : String) : Option String :=
  (hs.find? (fun p => p.1 == k)).map (fun p => p.2)

/-- src/lib.rs:22 `put_in_r2`: derive the key, probe with `head`, skip the write
    when the object exists, otherwise put the body with `{url: url}` metadata.
    The transport-failure switches stand for the `?` on `head` and `put`; a
    failed call leaves the store as it was. -/
def put_in_r2 (w : World) (url : String) (res : Response) : Except Error Unit × Store :=
  let key := get_r2_key url
  match w.bucketOk with
  | false => (Except.error (Error.bindingMissing r2Binding), w.store)
  | true =>
    match w.headErr with
    | true => (Except.error Error.storeHead, w.store)
    | false =>
      match w.store.lookup key with
      | some _ => (Except.ok (), w.store)
      | none =>
        let value := dataOfBody res.body
        match w.putErr with
        | true => (Except.error Error.storePut, w.store)
        | false => (Except.ok (), (key, ⟨value, [(urlMetaKey, url)]⟩) :: w.store)

/-- src/lib.rs:47 `get_from_r2`: derive the key and read it from the bucket;
    absence is `none`, not an error. -/
def get_from_r2 (w : World) (url : String) : Except Error (Option StoredObject) :=
  let key := get_r2_key url
  match w.bucketOk with
  | false => Except.error (Error.bindingMissing r2Binding)
  | true =>
    match w.getErr with
    | true => Except.error Error.storeGet
    | false => Except.ok (w.store.lookup key)

/-- src/lib.rs:54-63: the outbound GET request, forwarding the caller's
    User-Agent or the hard-coded browser string. -/
def origin_request (url_str ua : String) : Request := ⟨url_str, Method.get, [(userAgentKey, ua)]⟩

/-- The fetch target of the origin request built from the caller's headers. -/
def origin_target (url_str : String) (headers : List (String × String)) : FetchTarget :=
  FetchTarget.request (origin_request url_str ((headerGet headers userAgentKey).getD defaultUserAgent))

/-- src/lib.rs:81-89, the code reached when no cached object was returned early:
    read `FALLBACK_URL` from the environment, `Url::parse` it, and send a bare
    URL fetch, returning its result as is. -/
def serve_fallback (w : World) : Except Error Response × Store :=
  match w.vars.lookup fallbackUrlVar with
  | none => (Except.error (Error.bindingMissing fallbackUrlVar), w.store)
  | some fallback_url =>
    match w.parseUrl fallback_url with
    | none => (Except.error Error.urlParse, w.store)
    | some u => (w.send (FetchTarget.url u), w.store)

/-- src/lib.rs:53 `cache_url`: fetch the origin and branch on the status code:
    `200..300` caches a clone and returns the original response; `400..` serves
    a stored copy as a plain 200 if one exists, otherwise runs `serve_fallback`;
    every other status is the explicit `Err` of line 91.  (The `tracing` log
    calls, including the `res.text()` read on the miss path, only feed logging
    and are not modelled.) -/
def cache_url (w : World) (url_str : String) (headers : List (String × String)) :
    Except Error Response × Store :=
  match w.newRequestOk url_str with
  | false => (Except.error Error.invalidRequestUrl, w.store)
  | true =>
    match w.send (origin_target url_str headers) with
    | Except.error e => (Except.error e, w.store)
    | Except.ok res =>
      if 200 ≤ res.status_code ∧ res.status_code < 300 then
        match put_in_r2 w url_str res.cloned with
        | (Except.error e, s) => (Except.error e, s)
        | (Except.ok _, s) => (Except.ok res, s)
      else if 400 ≤ res.status_code then
        match get_from_r2 w url_str with
        | Except.error e => (Except.error e, w.store)
        | Except.ok r =>
          match r with
          | some obj =>
            match objBody obj with
            | some body => (Except.ok (Response.from_body (bodyOfData body)), w.store)
            | none => serve_fallback w
          | none => serve_fallback w
      else (Except.error (Error.rustError unexpectedStatusMsg), w.store)

/-- The JSON body of a POST request (src/lib.rs:106). -/
structure PostRequest where
  url : String
  access_token : String
  deriving DecidableEq, Repr

/-- An inbound request as the router hands it to a handler: its parsed query
    pairs, its headers, and the result of parsing its body as `PostRequest`. -/
structure IncomingRequest where
  query : List (String × String)
  headers : List (String × String)
  jsonBody : Option PostRequest

/-- src/lib.rs:96 `get`: find the `url` query parameter and delegate to
    `cache_url`; a missing parameter is the error of line 102. -/
def get (req : IncomingRequest) (w : World) : Except Error Response × Store :=
  match (req.query.find? (fun p => p.1 == urlQueryKey)).map (fun p => p.2) with
  | none => (Except.error (Error.rustError missingUrlMsg), w.store)
  | some url => cache_url w url req.headers

/-- src/lib.rs:113 `post`: parse the JSON body, compare `access_token` with the
    `API_TOKEN` variable (mismatch is a local 403 error response), then run
    `cache_url` for its side effect and answer with an empty response. -/
def post (req : IncomingRequest) (w : World) : Except Error Response × Store :=
  match req.jsonBody with
  | none => (Except.error Error.jsonParse, w.store)
  | some body =>
    match w.vars.lookup apiTokenVar with
    | none => (Except.error (Error.bindingMissing apiTokenVar), w.store)
    | some api_token =>
      if body.access_token ≠ api_token then
        (Except.ok (Response.error invalidTokenMsg 403), w.store)
      else
        match cache_url w body.url req.headers with
        | (Except.error e, s) => (Except.error e, s)
        | (Except.ok _, s) => (Except.ok Response.empty, s)

/-- The object `put_in_r2` persists for a response: its body bytes plus the
    `{url: url}` metadata map. -/
def putObject (url : String) (res : Response) : StoredObject :=
  ⟨dataOfBody res.body, [(urlMetaKey, url)]⟩

/-! ## Concrete fixtures used to witness the theorems -/

def helloStr : String := "hello"

def exUrl : String := "http://example.com/a"

def fbUrlStr : String := "https://fallback.example/placeholder.png"

def fbBodyStr : String := "placeholder bytes"

def apiTokenStr : String := "s3cret-token"

def wrongTokenStr : String := "not-the-token"

/-- A healthy origin response: 200 with body bytes of `"hello"`. -/
def resHello : Response := ⟨200, [], ResponseBody.Body (utf8Bytes helloStr)⟩

/-- A failing origin response with a header that must be discarded on cache hits. -/
def res500 : Response := ⟨500, [("X-Origin", "down")], ResponseBody.Body (utf8Bytes helloStr)⟩

/-- A failing origin response with an empty body. -/
def res404 : Response := ⟨404, [], ResponseBody.Empty⟩

/-- A redirect the status partition does not handle. -/
def res304 : Response := ⟨304, [("Location", "http://example.com/b")], ResponseBody.Empty⟩

/-- The fallback's own response: deliberately non-200 to show it is returned verbatim. -/
def resFallback : Response := ⟨503, [], ResponseBody.Body (utf8Bytes fbBodyStr)⟩

/-- The stored object produced by caching `resHello` for `exUrl`. -/
def objHello : StoredObject := ⟨Data.Bytes (utf8Bytes helloStr), [(urlMetaKey, exUrl)]⟩

def sendHealthy : FetchTarget → Except Error Response
  | FetchTarget.request _ => Except.ok resHello
  | FetchTarget.url _ => Except.error (Error.fetchFail 0)

def sendDown : FetchTarget → Except Error Response
  | FetchTarget.request _ => Except.ok res500
  | FetchTarget.url _ => Except.ok resFallback

def sendMissing : FetchTarget → Except Error Response
  | FetchTarget.request _ => Except.ok res404
  | FetchTarget.url _ => Except.ok resFallback

def sendRedirect : FetchTarget → Except Error Response
  | FetchTarget.request _ => Except.ok res304
  | FetchTarget.url _ => Except.ok resFallback

/-- The shared environment of the example worlds. -/
def exVars : List (String × String) := [(fallbackUrlVar, fbUrlStr), (apiTokenVar, apiTokenStr)]

def mkWorld (st : Store) (snd : FetchTarget → Except Error Response) : World :=
  ⟨st, true, false, false, false, exVars, fun _ => true, fun s => some s, snd⟩

/-- Cold cache, healthy origin (spec scenario A). -/
def wHealthy : World := mkWorld [] sendHealthy

/-- Warm cache, origin down (spec scenario B). -/
def wWarmDown : World := mkWorld [(get_r2_key exUrl, objHello)] sendDown

/-- Cold cache, origin down (spec scenario C). -/
def wColdDown : World := mkWorld [] sendMissing

/-- Cold cache, origin answering with a redirect. -/
def wRedirect : World := mkWorld [] sendRedirect

/-- A POST carrying the wrong access token (spec scenario D). -/
def reqWrongToken : IncomingRequest := ⟨[], [], some ⟨exUrl, wrongTokenStr⟩⟩

/-- A GET whose query has no `url` parameter. -/
def reqNoUrl : IncomingRequest := ⟨[("size", "big")], [], none⟩

/-- Read off the first 66 characters of a string as a point in a finite type,
    for the pigeonhole argument about key collisions. -/
def strEnc66 (s : String) : Fin 66 → Fin 1114112 :=
  fun i => ⟨(s.data.getD i 'a').toNat, by
    rcases (s.data.getD i 'a').valid with h | ⟨h1, h2⟩ <;>
      simp only [Char.toNat] at * <;> omega⟩

/-- One string of each length, pairwise distinct. -/
def aRun (n : Nat) : String := String.mk (List.replicate n 'a')


/-! ## Supporting lemmas -/

/-- The digest always has exactly 32 bytes. -/
theorem sha256_length (m : List Nat) : (sha256 m).length = 32 := rfl

/-- Every derived key is a 66-character string: 2 + 1 + 2 + 1 + 60. -/
theorem get_r2_key_length (u : String) : (get_r2_key u).length = 66 := rfl

set_option maxRecDepth 4000 in
/-- FIPS 180-4 test vector: the digest of the empty message. -/
theorem sha256_vector_empty :
    base16LowerEncode (sha256 (utf8Bytes (String.mk []))) =
      "e3b0c44298fc1c149afbf4c8996fb92427ae41e4649b934ca495991b7852b855" := by
  decide

set_option maxRecDepth 4000 in
/-- FIPS 180-4 test vector: the digest of `"abc"`. -/
theorem sha256_vector_abc :
    base16LowerEncode (sha256 (utf8Bytes (String.mk ['a', 'b', 'c']))) =
      "ba7816bf8f01cfea414140de5dae2223b00361a396177a9cb410ff61f20015ad" := by
  decide

set_option maxRecDepth 4000 in
/-- End-to-end check of the key pipeline on the example URL. -/
theorem get_r2_key_vector :
    get_r2_key exUrl = "5b/d4/8fa66118084cc32779267a31116dc05c70bcbca0f28e990cd58ce10afeae" := by
  decide

/-- `hexDigitL` always lands in the hex alphabet (out-of-range indices give the default digit). -/
theorem hexDigitL_mem (n : Nat) : hexDigitL n ∈ hexDigits := by
  by_cases h : n < hexDigits.length
  · rw [hexDigitL, hexDigits.getD_eq_getElem _ h]
    exact hexDigits.getElem_mem h
  · rw [hexDigitL, hexDigits.getD_eq_default _ (by omega)]
    decide

/-- Every character of an encoded digest is a lowercase hex digit. -/
theorem base16_chars_mem (bs : List Nat) : ∀ c ∈ (base16LowerEncode bs).data, c ∈ hexDigits := by
  induction bs with
  | nil => intro c hc; simp [base16LowerEncode, flatMapL] at hc
  | cons b tl ih =>
    intro c hc
    simp only [base16LowerEncode, flatMapL, List.cons_append, List.nil_append,
      List.mem_cons] at hc
    rcases hc with hc | hc | hc
    · exact hc ▸ hexDigitL_mem _
    · exact hc ▸ hexDigitL_mem _
    · exact ih c hc

theorem char_toNat_lt (c : Char) : c.toNat < 1114112 := by
  rcases c.valid with h | ⟨h1, h2⟩ <;> simp only [Char.toNat] at * <;> omega

theorem char_toNat_inj {c d : Char} (h : c.toNat = d.toNat) : c = d := by
  apply Char.eq_of_val_eq
  apply UInt32.eq_of_toBitVec_eq
  exact BitVec.eq_of_toNat_eq h

theorem strEnc66_inj {s t : String} (hs : s.length = 66) (ht : t.length = 66)
    (h : strEnc66 s = strEnc66 t) : s = t := by
  have hsl : s.data.length = 66 := hs
  have htl : t.data.length = 66 := ht
  have hd : s.data = t.data := by
    apply List.ext_getElem (by omega)
    intro n h1 h2
    have hn : n < 66 := by omega
    have hfin := congrFun h ⟨n, hn⟩
    simp only [strEnc66, Fin.mk.injEq] at hfin
    have he : s.data.getD n 'a' = t.data.getD n 'a' := char_toNat_inj hfin
    rwa [s.data.getD_eq_getElem _ h1, t.data.getD_eq_getElem _ h2] at he
  cases s
  cases t
  exact congrArg String.mk hd

theorem aRun_length (n : Nat) : (aRun n).length = n := by
  simp [aRun, String.length]

/-- Pigeonhole: `get_r2_key` maps infinitely many strings onto keys of the fixed
    length 66, so two distinct URLs must share a key. -/
theorem key_collision : ∃ u1 u2 : String, u1 ≠ u2 ∧ get_r2_key u1 = get_r2_key u2 := by
  obtain ⟨m, n, hmn, h⟩ :=
    Finite.exists_ne_map_eq_of_infinite (fun k : Nat => strEnc66 (get_r2_key (aRun k)))
  refine ⟨aRun m, aRun n, ?_, ?_⟩
  · intro he
    apply hmn
    have := congrArg String.length he
    rwa [aRun_length, aRun_length] at this
  · exact strEnc66_inj (get_r2_key_length _) (get_r2_key_length _) h

/-- The fallback path never touches the store. -/
theorem serve_fallback_store (w : World) : (serve_fallback w).2 = w.store := by
  simp only [serve_fallback]
  split
  · rfl
  · split
    · rfl
    · rfl

/-- The result and final store of `put_in_r2`: either the store is untouched, or
    the call succeeded on an absent key and prepended exactly the response's object. -/
theorem put_in_r2_store_cases (w : World) (url : String) (res : Response) :
    (put_in_r2 w url res).2 = w.store ∨
    ((put_in_r2 w url res).1 = Except.ok () ∧
      w.store.lookup (get_r2_key url) = none ∧
      (put_in_r2 w url res).2 = (get_r2_key url, putObject url res) :: w.store) := by
  simp only [put_in_r2]
  cases hB : w.bucketOk with
  | false => left; rfl
  | true =>
    cases hH : w.headErr with
    | true => left; rfl
    | false =>
      cases hL : w.store.lookup (get_r2_key url) with
      | some o => left; rfl
      | none =>
        cases hP : w.putErr with
        | true => left; rfl
        | false => right; exact ⟨rfl, rfl, rfl⟩

/-! ## The claims -/

/-- Claim C1: for every origin response with status in 200..299, `cache_url`
    hands a duplicate (`res.cloned`) to the write-if-absent `put_in_r2` keyed by
    `get_r2_key url` with metadata `{url: url}`, waits for that write, returns
    the original response unchanged whether the write wrote or was a no-op, and
    propagates a store error as the request's error. -/
theorem cache_url_success_caches_and_returns_original (w : World) (url : String)
    (hdrs : List (String × String)) (res : Response)
    (hnew : w.newRequestOk url = true)
    (hsend : w.send (origin_target url hdrs) = Except.ok res)
    (h2 : 200 ≤ res.status_code) (h3 : res.status_code < 300) :
    cache_url w url hdrs =
      (match put_in_r2 w url res.cloned with
       | (Except.error e, s) => (Except.error e, s)
       | (Except.ok _, s) => (Except.ok res, s)) ∧
    (w.bucketOk = true → w.headErr = false →
      (∀ obj, w.store.lookup (get_r2_key url) = some obj →
        put_in_r2 w url res.cloned = (Except.ok (), w.store)) ∧
      (w.store.lookup (get_r2_key url) = none → w.putErr = false →
        put_in_r2 w url res.cloned =
          (Except.ok (), (get_r2_key url, putObject url res) :: w.store))) := by
  constructor
  · simp only [cache_url, hnew, hsend]
    rw [if_pos ⟨h2, h3⟩]
  · intro hb hh
    constructor
    · intro obj hobj
      simp only [put_in_r2, hb, hh, hobj]
    · intro hmiss hput
      simp only [put_in_r2, hb, hh, hmiss, hput, putObject, Response.cloned]

/-- Witness for C1: scenario A, cold cache and healthy origin, evaluated on the
    example fixtures. -/
theorem cache_url_success_caches_and_returns_original_witness :
    cache_url wHealthy exUrl [] =
      (Except.ok resHello, [(get_r2_key exUrl, putObject exUrl resHello)]) := by
  have h := cache_url_success_caches_and_returns_original wHealthy exUrl [] resHello
    rfl rfl (by decide) (by decide)
  rw [h.1, (h.2 rfl rfl).2 rfl rfl]
  rfl

/-- Claim C2: on an origin response with status at least 400, if the store holds
    an object at the derived key, `cache_url` answers with a synthetic response
    carrying status 200, no headers, and the stored body; the origin's status
    and headers are discarded and the store is untouched. -/
theorem cache_url_origin_failure_cache_hit (w : World) (url : String)
    (hdrs : List (String × String)) (res : Response) (obj : StoredObject)
    (hnew : w.newRequestOk url = true)
    (hsend : w.send (origin_target url hdrs) = Except.ok res)
    (h4 : 400 ≤ res.status_code)
    (hb : w.bucketOk = true) (hg : w.getErr = false)
    (hhit : w.store.lookup (get_r2_key url) = some obj) :
    cache_url w url hdrs = (Except.ok ⟨200, [], bodyOfData obj.value⟩, w.store) := by
  simp only [cache_url, hnew, hsend]
  rw [if_neg (by omega), if_pos h4]
  simp only [get_from_r2, hb, hg, hhit, objBody, Response.from_body]

/-- Witness for C2: scenario B, warm cache with the origin returning 500. -/
theorem cache_url_origin_failure_cache_hit_witness :
    cache_url wWarmDown exUrl [] =
      (Except.ok ⟨200, [], ResponseBody.Body (utf8Bytes helloStr)⟩, wWarmDown.store) :=
  cache_url_origin_failure_cache_hit wWarmDown exUrl [] res500 objHello
    rfl rfl (by decide) rfl rfl (by simp [wWarmDown, mkWorld, List.lookup])

/-- Claim C3: on an origin response with status at least 400 and no stored
    object at the derived key, `cache_url` fetches the configured fallback URL
    as a bare URL fetch (no headers, hence no User-Agent) and returns that
    fetch's outcome unchanged, whatever it is, leaving the store untouched. -/
theorem cache_url_origin_failure_cache_miss_fallback (w : World) (url : String)
    (hdrs : List (String × String)) (res : Response) (fb u2 : String)
    (hnew : w.newRequestOk url = true)
    (hsend : w.send (origin_target url hdrs) = Except.ok res)
    (h4 : 400 ≤ res.status_code)
    (hb : w.bucketOk = true) (hg : w.getErr = false)
    (hmiss : w.store.lookup (get_r2_key url) = none)
    (hvar : w.vars.lookup fallbackUrlVar = some fb)
    (hparse : w.parseUrl fb = some u2) :
    cache_url w url hdrs = (w.send (FetchTarget.url u2), w.store) := by
  simp only [cache_url, hnew, hsend]
  rw [if_neg (by omega), if_pos h4]
  simp only [get_from_r2, hb, hg, hmiss, serve_fallback, hvar, hparse]

/-- Witness for C3: scenario C, cold cache with the origin returning 404; the
    fallback's own 503 response comes back verbatim. -/
theorem cache_url_origin_failure_cache_miss_fallback_witness :
    cache_url wColdDown exUrl [] = (Except.ok resFallback, []) :=
  cache_url_origin_failure_cache_miss_fallback wColdDown exUrl [] res404 fbUrlStr fbUrlStr
    rfl rfl (by decide) rfl rfl rfl
    (by simp [wColdDown, mkWorld, exVars, List.lookup]) rfl

/-- Claim C4: an origin response with status below 200 or inside 300..399 is
    matched by neither the success branch nor the recovery branch: `cache_url`
    produces the explicit third outcome, the "unexpected status code" error,
    without any store write; the second conjunct shows the outcome ignores the
    store contents entirely. -/
theorem cache_url_status_gap_error (w : World) (url : String)
    (hdrs : List (String × String)) (res : Response)
    (hnew : w.newRequestOk url = true)
    (hsend : w.send (origin_target url hdrs) = Except.ok res)
    (hband : res.status_code < 200 ∨ (300 ≤ res.status_code ∧ res.status_code < 400)) :
    cache_url w url hdrs = (Except.error (Error.rustError unexpectedStatusMsg), w.store) ∧
    (∀ st : Store, cache_url (w.withStore st) url hdrs =
        (Except.error (Error.rustError unexpectedStatusMsg), st)) := by
  constructor
  · simp only [cache_url, hnew, hsend]
    rw [if_neg (by omega), if_neg (by omega)]
  · intro st
    simp only [cache_url, World.withStore, hnew, hsend]
    rw [if_neg (by omega), if_neg (by omega)]

/-- Witness for C4: a 304 redirect-band response hits the gap. -/
theorem cache_url_status_gap_error_witness :
    cache_url wRedirect exUrl [] = (Except.error (Error.rustError unexpectedStatusMsg), []) :=
  (cache_url_status_gap_error wRedirect exUrl [] res304 rfl rfl (by decide)).1

/-- Claim C5: `put_in_r2` is write-once idempotent.  It first consults the
    existence probe; on a present key it is a successful no-op that never
    overwrites.  After a first successful write, a second call for the same URL
    with any response is a no-op, and the value stored at the key is still the
    value of the first call. -/
theorem put_in_r2_write_once_idempotent (w : World) (url : String) (res : Response)
    (hb : w.bucketOk = true) (hh : w.headErr = false) :
    (∀ obj, w.store.lookup (get_r2_key url) = some obj →
      put_in_r2 w url res = (Except.ok (), w.store)) ∧
    (w.store.lookup (get_r2_key url) = none → w.putErr = false →
      put_in_r2 w url res = (Except.ok (), (get_r2_key url, putObject url res) :: w.store) ∧
      (∀ res2, put_in_r2 (w.withStore ((get_r2_key url, putObject url res) :: w.store)) url res2 =
        (Except.ok (), (get_r2_key url, putObject url res) :: w.store)) ∧
      ((get_r2_key url, putObject url res) :: w.store).lookup (get_r2_key url) =
        some (putObject url res)) := by
  have hself : ((get_r2_key url, putObject url res) :: w.store).lookup (get_r2_key url) =
      some (putObject url res) := by
    simp [List.lookup]
  constructor
  · intro obj hobj
    simp only [put_in_r2, hb, hh, hobj]
  · intro hmiss hput
    refine ⟨?_, ?_, hself⟩
    · simp only [put_in_r2, hb, hh, hmiss, hput, putObject]
    · intro res2
      simp only [put_in_r2, World.withStore, hb, hh, hself]

/-- Witness for C5: first write persists `resHello`; a second call with the
    different response `res404` is a no-op and the stored object is unchanged. -/
theorem put_in_r2_write_once_idempotent_witness :
    put_in_r2 wHealthy exUrl resHello =
      (Except.ok (), [(get_r2_key exUrl, putObject exUrl resHello)]) ∧
    put_in_r2 (wHealthy.withStore [(get_r2_key exUrl, putObject exUrl resHello)]) exUrl res404 =
      (Except.ok (), [(get_r2_key exUrl, putObject exUrl resHello)]) := by
  have h := (put_in_r2_write_once_idempotent wHealthy exUrl resHello rfl rfl).2 rfl rfl
  exact ⟨h.1, h.2.1 res404⟩

/-- Claim C6 (amended to the fact provable of the code): key derivation is the
    spec's algorithm and is total and deterministic.  `get_r2_key` agrees with
    the spec-worded `deriveKeySpec` on every string (including the empty one),
    equal inputs give equal keys, the key always has the 2/2/60 sharded shape of
    length 66, and the digest's encoding uses only lowercase hex digits. -/
theorem get_r2_key_refines_spec : ∀ u v : String, u = v →
    get_r2_key u = get_r2_key v ∧
    get_r2_key u = deriveKeySpec u ∧
    (get_r2_key u).length = 66 ∧
    ∀ c ∈ (base16LowerEncode (sha256 (utf8Bytes u))).data, c ∈ hexDigits := by
  intro u v h
  exact ⟨h ▸ rfl, rfl, rfl, base16_chars_mem _⟩

/-- Witness for C6 at the example URL. -/
theorem get_r2_key_refines_spec_witness :
    get_r2_key exUrl = deriveKeySpec exUrl ∧ (get_r2_key exUrl).length = 66 :=
  ⟨(get_r2_key_refines_spec exUrl exUrl rfl).2.1,
   (get_r2_key_refines_spec exUrl exUrl rfl).2.2.1⟩

/-- Claim C7, counterexample: universal collision-freeness is impossible for
    `get_r2_key` — all keys have length 66, so by pigeonhole some two distinct
    strings share a key. -/
theorem get_r2_key_not_injective :
    ¬ ∀ u1 u2 : String, u1 ≠ u2 → get_r2_key u1 ≠ get_r2_key u2 := by
  intro hall
  obtain ⟨u1, u2, hne, he⟩ := key_collision
  exact hall u1 u2 hne he

/-- Claim C7 (amended): there exist distinct URLs with equal keys; the claim's
    universal distinctness can only hold as a practical cryptographic
    assumption, not as a theorem about the function. -/
theorem get_r2_key_collision_exists :
    ∃ u1 u2 : String, u1 ≠ u2 ∧ get_r2_key u1 = get_r2_key u2 :=
  key_collision

/-- Claim C8: a POST whose `access_token` differs from the configured secret is
    answered locally with a 403 plain-text error response; the store is left
    untouched and the outcome is the same under every network oracle, so no
    origin fetch can have been involved. -/
theorem post_wrong_token_rejected (req : IncomingRequest) (w : World) (body : PostRequest)
    (tok : String)
    (hjson : req.jsonBody = some body)
    (htok : w.vars.lookup apiTokenVar = some tok)
    (hne : body.access_token ≠ tok) :
    post req w = (Except.ok ⟨403, [], ResponseBody.Body (utf8Bytes invalidTokenMsg)⟩, w.store) ∧
    (∀ snd2, post req (w.withSend snd2) =
      (Except.ok ⟨403, [], ResponseBody.Body (utf8Bytes invalidTokenMsg)⟩, w.store)) := by
  constructor
  · simp only [post, hjson, htok]
    rw [if_pos hne]
    rfl
  · intro snd2
    simp only [post, World.withSend, hjson, htok]
    rw [if_pos hne]
    rfl

/-- Witness for C8: scenario D on the fixtures. -/
theorem post_wrong_token_rejected_witness :
    post reqWrongToken wHealthy =
      (Except.ok ⟨403, [], ResponseBody.Body (utf8Bytes invalidTokenMsg)⟩, []) :=
  (post_wrong_token_rejected reqWrongToken wHealthy ⟨exUrl, wrongTokenStr⟩ apiTokenStr
    rfl (by decide) (by decide)).1

/-- Claim C9, counterexample: on a GET without a `url` query parameter the
    handler does not return any response, 4xx or otherwise — it fails with the
    `missing url parameter` error, which the surrounding framework, not the
    handler, turns into an error response. -/
theorem get_missing_url_cex :
    get reqNoUrl wHealthy = (Except.error (Error.rustError missingUrlMsg), []) ∧
    (get reqNoUrl wHealthy).1.toOption = none := by
  constructor <;> rfl

/-- Claim C9 (amended): a GET without a `url` query parameter fails with the
    descriptive `missing url parameter` error and terminates without any origin
    fetch or store operation: the outcome is identical under every network
    oracle and every store contents, which are returned untouched. -/
theorem get_missing_url_param_fails (req : IncomingRequest) (w : World)
    (hq : req.query.find? (fun p => p.1 == urlQueryKey) = none) :
    get req w = (Except.error (Error.rustError missingUrlMsg), w.store) ∧
    (∀ snd2 st, get req ((w.withStore st).withSend snd2) =
      (Except.error (Error.rustError missingUrlMsg), st)) := by
  constructor
  · simp only [get, hq, Option.map]
  · intro snd2 st
    simp only [get, World.withStore, World.withSend, hq, Option.map]

/-- Witness for C9 on the fixtures. -/
theorem get_missing_url_param_fails_witness :
    get reqNoUrl wHealthy = (Except.error (Error.rustError missingUrlMsg), []) :=
  (get_missing_url_param_fails reqNoUrl wHealthy rfl).1

/-- Claim C10: the only way the store changes across `cache_url` is the 2xx
    success branch, and then the new store is exactly the old one plus the
    origin response's body at the derived key: every run either leaves the
    store untouched (cache hit, fallback, and all error paths included) or
    recorded a 2xx origin response on a previously absent key and returned
    that same response. -/
theorem store_write_only_on_success : ∀ (w : World) (url : String)
    (hdrs : List (String × String)),
    (cache_url w url hdrs).2 = w.store ∨
    (∃ res, w.send (origin_target url hdrs) = Except.ok res ∧
      200 ≤ res.status_code ∧ res.status_code < 300 ∧
      w.store.lookup (get_r2_key url) = none ∧
      (cache_url w url hdrs).2 = (get_r2_key url, putObject url res) :: w.store ∧
      (cache_url w url hdrs).1 = Except.ok res) := by
  intro w url hdrs
  simp only [cache_url]
  split
  · left; rfl
  · split
    · left; rfl
    · rename_i res hS
      split
      · rename_i h2
        have hps := put_in_r2_store_cases w url res.cloned
        rcases hP : put_in_r2 w url res.cloned with ⟨r1, s1⟩
        rw [hP] at hps
        cases r1 with
        | error e =>
          rcases hps with h | ⟨h1, _, _⟩
          · left; exact h
          · cases h1
        | ok u =>
          rcases hps with h | ⟨h1, hl, hs⟩
          · left; exact h
          · right
            exact ⟨res, hS, h2.1, h2.2, hl, hs, rfl⟩
      · split
        · left
          rcases hG : get_from_r2 w url with e | r
          · rfl
          · rcases r with _ | obj
            · exact serve_fallback_store w
            · rfl
        · left; rfl

end Ficp
